import Mathlib

/-!
Shallow embedding of the TEEDEElk repository's HTTP request/retry/error
normalization pipeline (`src/api/ApiClient.ts`), the user service layer
(`UserService`), the `UserTable` component's selection/load state
transitions, and the utility functions `generateRandomString` and
`deepClone` (`src/utils/index.ts`).

Conventions of the embedding:
* The axios transport is modelled as a function from the attempt number
  (1-based, as in the source's `for` loop) to either a response or a
  raised axios failure.
* JavaScript exceptions are modelled with explicit sum types; a thrown
  value that is `undefined` gets its own constructor since the source can
  `throw lastError` with `lastError` still `undefined`.
* JavaScript string truthiness (`''` is falsy) is modelled explicitly at
  each use site.
* `parseInt` is modelled over decimal and hexadecimal prefixes with a
  `JsNum.nan` result when no digit can be parsed, matching the
  radix-detection behaviour of the JavaScript builtin on string inputs;
  `\s` is modelled by `Char.isWhitespace`.
-/

namespace ApiClientModel

/-- Headers of a successful axios response, restricted to the three
headers that `ApiClient.parseResponse` reads. A `none` models an absent
header. -/
structure Headers where
  xTotalCount : Option String
  xPage : Option String
  xLimit : Option String
deriving Repr, DecidableEq

/-- A successful axios transport response: `{ status, data, headers }`. -/
structure AxiosResp (ρ : Type) where
  status : Nat
  data : ρ
  headers : Headers
deriving Repr, DecidableEq

/-- The body attached to an error response, restricted to the fields
`ApiClient.handleError` reads (`data?.message`, `data?.code`). -/
structure ErrBody where
  message : Option String
  code : Option String
deriving Repr, DecidableEq

/-- The `response` part of an axios failure: present exactly when the
remote endpoint answered with an error status. -/
structure ErrResponse where
  status : Nat
  body : Option ErrBody
deriving Repr, DecidableEq

/-- An axios failure as observed by `makeRequestWithRetry` and
`handleError`: optional `response`, optional `code` (e.g.
`"ECONNABORTED"` for timeouts), whether a `request` object is attached
(request was dispatched), and an optional `message`. -/
structure AxiosFailure where
  response : Option ErrResponse
  code : Option String
  hasRequest : Bool
  message : Option String
deriving Repr, DecidableEq

/-- One transport attempt either yields a response or raises a failure. -/
abbrev Transport (ρ : Type) := Nat → Except AxiosFailure (AxiosResp ρ)

/-- A JavaScript value thrown out of `makeRequestWithRetry`: either the
recorded last axios failure, or `undefined` when the loop body never ran
(attempt count 0). -/
inductive Thrown where
  | undef : Thrown
  | fail : AxiosFailure → Thrown
deriving Repr, DecidableEq

/-- Result of `makeRequestWithRetry`, instrumented with the observable
effects: the number of transport invocations performed and the list of
inter-attempt delays (in ms) awaited, in order. -/
structure RetryOutcome (ρ : Type) where
  result : Except Thrown (AxiosResp ρ)
  attemptsMade : Nat
  delays : List Nat
deriving Repr

/-- The non-retry condition of the source:
`error.response?.status >= 400 && error.response?.status < 500 &&
error.code !== 'ECONNABORTED'`. When `response` is absent the
JavaScript comparison `undefined >= 400` is false. -/
def nonRetryableClientError (e : AxiosFailure) : Bool :=
  match e.response with
  | some r => decide (400 ≤ r.status) && decide (r.status < 500)
      && decide (e.code ≠ some "ECONNABORTED")
  | none => false

/-- The body of the `for (attempt = 1; attempt <= attempts; attempt++)`
loop of `makeRequestWithRetry`. `fuel` counts the attempts still allowed
including the current one, so `fuel = attempts - attempt + 1`; `fuel = 0`
models the loop not executing (then `throw lastError` throws
`undefined`). -/
def retryAux (transport : Transport ρ) (delay : Nat) :
    Nat → Nat → RetryOutcome ρ
  | _, 0 => ⟨.error .undef, 0, []⟩
  | attempt, fuel + 1 =>
    match transport attempt with
    | .ok resp => ⟨.ok resp, 1, []⟩
    | .error e =>
      if nonRetryableClientError e then ⟨.error (.fail e), 1, []⟩
      else if fuel = 0 then ⟨.error (.fail e), 1, []⟩
      else
        let rest := retryAux transport delay (attempt + 1) fuel
        ⟨rest.result, rest.attemptsMade + 1, delay :: rest.delays⟩

/-- `ApiClient.makeRequestWithRetry` with an effective retry policy of
`attempts` attempts and `delay` ms between attempts. -/
def makeRequestWithRetry (transport : Transport ρ) (attempts delay : Nat) :
    RetryOutcome ρ :=
  retryAux transport delay 1 attempts

/-- A retry policy: `{ attempts, delay }`. -/
structure RetryPolicy where
  attempts : Nat
  delay : Nat
deriving Repr, DecidableEq

/-- `options.retry || this.config.retry`: the per-call override wins when
present. -/
def effectiveRetry (optionsRetry : Option RetryPolicy)
    (configRetry : RetryPolicy) : RetryPolicy :=
  optionsRetry.getD configRetry

/-- The constructor default `retry: { attempts: 3, delay: 1000 }`. -/
def defaultRetry : RetryPolicy := ⟨3, 1000⟩

/-- A JavaScript number restricted to what `parseInt` on a string can
produce: an integer or `NaN`. -/
inductive JsNum where
  | nan : JsNum
  | int : Int → JsNum
deriving Repr, DecidableEq

/-- Value of a decimal digit character. -/
def decDigit? (c : Char) : Option Nat :=
  if '0' ≤ c ∧ c ≤ '9' then some (c.toNat - '0'.toNat) else none

/-- Value of a hexadecimal digit character. -/
def hexDigit? (c : Char) : Option Nat :=
  if '0' ≤ c ∧ c ≤ '9' then some (c.toNat - '0'.toNat)
  else if 'a' ≤ c ∧ c ≤ 'f' then some (c.toNat - 'a'.toNat + 10)
  else if 'A' ≤ c ∧ c ≤ 'F' then some (c.toNat - 'A'.toNat + 10)
  else none

/-- Model of the JavaScript `parseInt(s)` (radix argument omitted):
skip leading whitespace, read an optional sign, detect a `0x`/`0X`
hexadecimal prefix, then parse the longest digit prefix; `NaN` when no
digit is found. -/
def parseIntJS (s : String) : JsNum :=
  let cs := s.toList.dropWhile Char.isWhitespace
  let signed : Bool × List Char :=
    match cs with
    | '-' :: t => (true, t)
    | '+' :: t => (false, t)
    | _ => (false, cs)
  let hexed : (Char → Option Nat) × Nat × List Char :=
    match signed.2 with
    | '0' :: 'x' :: t => (hexDigit?, 16, t)
    | '0' :: 'X' :: t => (hexDigit?, 16, t)
    | t => (decDigit?, 10, t)
  let ds := hexed.2.2.takeWhile (fun c => (hexed.1 c).isSome)
  if ds.isEmpty then JsNum.nan
  else
    let v : Nat := ds.foldl (fun acc c => acc * hexed.2.1 + ((hexed.1 c).getD 0)) 0
    JsNum.int (if signed.1 then -(v : Int) else (v : Int))

/-- Pagination metadata of the normalized envelope: each field is
`undefined` (`none`) or a parsed number. -/
structure Meta where
  total : Option JsNum
  page : Option JsNum
  limit : Option JsNum
deriving Repr, DecidableEq

/-- The normalized response envelope `ApiResponse` of the source:
`success`, optional `data`, optional `error`, `statusCode`, optional
`meta`. -/
structure ApiResponse (ρ : Type) where
  success : Bool
  data : Option ρ
  error : Option String
  statusCode : Nat
  meta : Option Meta
deriving Repr

/-- One meta field of `parseResponse`:
`headers[name] ? parseInt(headers[name]) : undefined`. An absent or empty
(falsy) header yields `undefined`; any other string is fed to
`parseInt`. -/
def headerMeta (h : Option String) : Option JsNum :=
  match h with
  | none => none
  | some s => if s = "" then none else some (parseIntJS s)

/-- `ApiClient.parseResponse`: wraps a successful transport response in a
success envelope. -/
def parseResponse (resp : AxiosResp ρ) : ApiResponse ρ :=
  { success := true
    data := some resp.data
    error := none
    statusCode := resp.status
    meta := some ⟨headerMeta resp.headers.xTotalCount,
                  headerMeta resp.headers.xPage,
                  headerMeta resp.headers.xLimit⟩ }

/-- JavaScript `a || b` for an optional string `a` (both `undefined` and
`''` are falsy). -/
def jsOr (a : Option String) (b : String) : String :=
  match a with
  | some s => if s = "" then b else s
  | none => b

/-- The failure envelope built by `ApiClient.handleError` from an axios
failure (the `code`/`details` fields of the intermediate `ApiError` are
computed by the source but not exposed in the envelope). -/
def failureEnvelope (ρ : Type) (e : AxiosFailure) : ApiResponse ρ :=
  match e.response with
  | some r =>
    { success := false
      data := none
      error := some (jsOr (r.body.bind ErrBody.message) "Server error occurred")
      statusCode := r.status
      meta := none }
  | none =>
    if e.hasRequest then
      { success := false
        data := none
        error := some "No response received from server"
        statusCode := 0
        meta := none }
    else
      { success := false
        data := none
        error := some (jsOr e.message "An unexpected error occurred")
        statusCode := 0
        meta := none }

/-- `ApiClient.handleError` applied to the caught value. Catching the
`undefined` thrown by a zero-attempt retry loop makes
`error.response` raise a `TypeError` inside `handleError`, which
propagates to `request`'s caller; `none` models that uncaught
exception. -/
def handleError (ρ : Type) : Thrown → Option (ApiResponse ρ)
  | .undef => none
  | .fail e => some (failureEnvelope ρ e)

/-- `ApiClient.request`: run the retry loop, parse a success, normalize a
failure. `none` models an exception escaping to the caller (which the
source only does when the caught thrown value is `undefined`). -/
def request (transport : Transport ρ) (attempts delay : Nat) :
    Option (ApiResponse ρ) :=
  match (makeRequestWithRetry transport attempts delay).result with
  | .ok resp => some (parseResponse resp)
  | .error t => handleError ρ t

end ApiClientModel

namespace UserServiceModel

open ApiClientModel

/-- A JSON-like value, used to state the exact shape (field names
included) of request bodies built by the service layer. -/
inductive JsValue where
  | str : String → JsValue
  | arr : List JsValue → JsValue
  | obj : List (String × JsValue) → JsValue
deriving Repr

/-- Observable outcome of a service-layer method: either a synchronously
thrown validation fault (no transport invocation at all), or exactly one
delegated HTTP request with its method, endpoint and body. -/
inductive SvcCall (β : Type) where
  | thrown : String → SvcCall β
  | requested : String → String → β → SvcCall β
deriving Repr

/-- `CreateUserData`: required `username`, `email`, `fullName`,
`password`, optional `avatar`. -/
structure CreateUserData where
  username : String
  email : String
  fullName : String
  password : String
  avatar : Option String := none
deriving Repr, DecidableEq

/-- The character class `[^\s@]` of the email regex (whitespace modelled
by `Char.isWhitespace`). -/
def emailClassChar (c : Char) : Bool :=
  !c.isWhitespace && c ≠ '@'

/-- Whether the character list has a `'.'` that is neither its first nor
its last element. -/
def hasInnerDot : List Char → Bool
  | [] => false
  | _ :: rest => dotThenMore rest
where
  /-- Whether the list contains a `'.'` followed by at least one more
  character. -/
  dotThenMore : List Char → Bool
    | [] => false
    | '.' :: _ :: _ => true
    | _ :: rest => dotThenMore rest

/-- Model of `/^[^\s@]+@[^\s@]+\.[^\s@]+$/.test(s)`: the string splits
as `a@b` with `a` a nonempty run of class characters and `b` a run of
class characters matching `X.Y` with `X`, `Y` nonempty (equivalently,
`b` has an inner dot, `'.'` itself being a class character). -/
def emailRegexTest (s : String) : Bool :=
  match s.toList.splitOn '@' with
  | [a, b] =>
    !a.isEmpty && a.all emailClassChar && b.all emailClassChar && hasInnerDot b
  | _ => false

/-- `UserService.createUser`: required-field presence (JavaScript
truthiness: empty strings are missing), email format, minimum password
length, then `POST baseEndpoint userData`. -/
def createUser (baseEndpoint : String) (d : CreateUserData) :
    SvcCall CreateUserData :=
  if d.username = "" || d.email = "" || d.fullName = "" || d.password = "" then
    .thrown "All required fields must be provided"
  else if !emailRegexTest d.email then
    .thrown "Invalid email format"
  else if d.password.length < 8 then
    .thrown "Password must be at least 8 characters long"
  else
    .requested "POST" baseEndpoint d

/-- `UserService.bulkUpdateUsers`: an empty id list throws synchronously;
otherwise `POST` to `baseEndpoint + "/bulk-update"` with the body
`{ userIds, updateData }`. The already-serialized update payload is
passed through untouched. -/
def bulkUpdateUsers (baseEndpoint : String) (userIds : List String)
    (updateData : JsValue) : SvcCall JsValue :=
  if userIds.length = 0 then
    .thrown "At least one user ID must be provided"
  else
    .requested "POST" (baseEndpoint ++ "/bulk-update")
      (.obj [("userIds", .arr (userIds.map .str)), ("updateData", updateData)])

end UserServiceModel

namespace UserTableModel

/-- The selection- and load-relevant part of the `UserTable` component
state: displayed user ids, selected ids, loading flag, error message. -/
structure UserTableState where
  users : List String
  selectedUserIds : List String
  loading : Bool
  error : Option String
deriving Repr, DecidableEq

/-- Net effect on the state of a successful `loadUsers` run: the leading
`setState` sets `loading := true, error := null`, and the success branch
replaces `users` and clears `loading`. No other field is touched — in
particular `selectedUserIds` is carried over unchanged. -/
def loadUsersSuccess (s : UserTableState) (fetched : List String) :
    UserTableState :=
  { s with users := fetched, loading := false, error := none }

/-- `handleUserSelection`: add the id on select, remove every occurrence
on deselect. -/
def handleUserSelection (s : UserTableState) (userId : String)
    (selected : Bool) : UserTableState :=
  { s with selectedUserIds :=
      if selected then s.selectedUserIds ++ [userId]
      else s.selectedUserIds.filter (fun i => i ≠ userId) }

/-- The selection-clearing `setState` of `handleBulkUpdate`'s success
branch. -/
def bulkUpdateClearSelection (s : UserTableState) : UserTableState :=
  { s with selectedUserIds := [] }

end UserTableModel

namespace UtilsModel

/-- Outcome of `generateRandomString`: a thrown error or the produced
string. -/
inductive GenResult where
  | thrown : String → GenResult
  | ok : String → GenResult
deriving Repr, DecidableEq

/-- `generateRandomString(length, charset)` with the `crypto`
randomness supplied as a byte source `randomByte` (each
`Uint8Array` entry is reduced mod 256). `length` ranges over the
integers since the source checks `length <= 0`. -/
def generateRandomString (length : Int) (charset : String)
    (randomByte : Nat → Nat) : GenResult :=
  if length ≤ 0 then
    .thrown "Length must be a positive number"
  else if charset.length = 0 then
    .thrown "Charset cannot be empty"
  else
    .ok (String.mk ((List.range length.toNat).map
      (fun i => charset.toList.getD ((randomByte i % 256) % charset.length) 'A')))

/-- A JavaScript primitive (anything with `typeof ≠ 'object'`, plus
`null`). -/
inductive JsPrim where
  | nullv : JsPrim
  | undef : JsPrim
  | bool : Bool → JsPrim
  | num : Int → JsPrim
  | str : String → JsPrim
deriving Repr, DecidableEq

/-- A JavaScript value built from primitives, `Date`s, arrays and plain
objects — the domain handled by `deepClone`. -/
inductive JsVal where
  | prim : JsPrim → JsVal
  | date : Int → JsVal
  | arr : List JsVal → JsVal
  | obj : List (String × JsVal) → JsVal
deriving Repr

/-- `deepClone`: primitives and `null` are returned as-is, `Date`s are
rebuilt from their timestamp, arrays are cloned elementwise, plain
objects are cloned own-property-wise. -/
def deepClone : JsVal → JsVal
  | .prim p => .prim p
  | .date t => .date t
  | .arr xs => .arr (deepCloneList xs)
  | .obj fs => .obj (deepCloneFields fs)
where
  /-- `obj.map(item => deepClone(item))`. -/
  deepCloneList : List JsVal → List JsVal
    | [] => []
    | x :: xs => deepClone x :: deepCloneList xs
  /-- `for (const key in obj) if (obj.hasOwnProperty(key)) clonedObj[key] = deepClone(obj[key])`. -/
  deepCloneFields : List (String × JsVal) → List (String × JsVal)
    | [] => []
    | (k, v) :: fs => (k, deepClone v) :: deepCloneFields fs

end UtilsModel

namespace ApiClientModel

/-- A failure whose error response carries a 5xx (or any ≥ 500) status
does not trigger the client-error early exit of the retry loop. -/
theorem nonRetryable_eq_false_of_ge_500 (e : AxiosFailure) (r : ErrResponse)
    (hr : e.response = some r) (h5 : 500 ≤ r.status) :
    nonRetryableClientError e = false := by
  unfold nonRetryableClientError
  rw [hr]
  simp [show ¬(r.status < 500) by omega]

/-- One unrolling of the retry loop on a retryable failure when further
attempts remain: the loop waits once and continues with the next
attempt. -/
theorem retryAux_step {ρ : Type} (transport : Transport ρ) (delay : Nat)
    (attempt k : Nat) (e : AxiosFailure)
    (h1 : transport attempt = .error e)
    (h2 : nonRetryableClientError e = false) :
    retryAux transport delay attempt (k + 1 + 1) =
      ⟨(retryAux transport delay (attempt + 1) (k + 1)).result,
       (retryAux transport delay (attempt + 1) (k + 1)).attemptsMade + 1,
       delay :: (retryAux transport delay (attempt + 1) (k + 1)).delays⟩ := by
  conv_lhs => rw [retryAux]
  rw [h1]
  simp [h2]

/-- When every attempt in the window `[attempt, attempt + k]` raises a
retryable failure, the loop body runs `k + 1` times, waits `k` times for
`delay` ms, and surfaces the failure of the final attempt. -/
theorem retryAux_allFail {ρ : Type} (transport : Transport ρ) (delay : Nat)
    (e : Nat → AxiosFailure) :
    ∀ k attempt,
    (∀ i, attempt ≤ i → i ≤ attempt + k → transport i = .error (e i)) →
    (∀ i, attempt ≤ i → i ≤ attempt + k → nonRetryableClientError (e i) = false) →
    retryAux transport delay attempt (k + 1) =
      ⟨.error (.fail (e (attempt + k))), k + 1, List.replicate k delay⟩ := by
  intro k
  induction k with
  | zero =>
    intro attempt hfail _
    have h1 : transport attempt = .error (e attempt) :=
      hfail attempt le_rfl (by omega)
    simp [retryAux, h1]
  | succ k ih =>
    intro attempt hfail hretry
    have h1 : transport attempt = .error (e attempt) :=
      hfail attempt le_rfl (by omega)
    have h2 : nonRetryableClientError (e attempt) = false :=
      hretry attempt le_rfl (by omega)
    have ihr := ih (attempt + 1)
      (fun i hi1 hi2 => hfail i (by omega) (by omega))
      (fun i hi1 hi2 => hretry i (by omega) (by omega))
    have harith : attempt + 1 + k = attempt + (k + 1) := by omega
    rw [harith] at ihr
    rw [retryAux_step transport delay attempt k (e attempt) h1 h2, ihr]
    simp [List.replicate_succ]

/-- C1. For every retry policy with `attempts = N ≥ 1` and every
transport that fails with a 5xx status on each of the `N` attempts,
`makeRequestWithRetry` performs exactly `N` transport attempts, waits
the configured delay between consecutive attempts (`N - 1` waits of
`delay` ms), and surfaces the failure raised by the last attempt. -/
theorem c1_retry_exhausts_all_attempts {ρ : Type} (transport : Transport ρ)
    (N delay : Nat) (e : Nat → AxiosFailure)
    (hN : 1 ≤ N)
    (hfail : ∀ i, 1 ≤ i → i ≤ N → transport i = .error (e i))
    (h5xx : ∀ i, 1 ≤ i → i ≤ N →
      ∃ r, (e i).response = some r ∧ 500 ≤ r.status ∧ r.status ≤ 599) :
    makeRequestWithRetry transport N delay =
      ⟨.error (.fail (e N)), N, List.replicate (N - 1) delay⟩ := by
  obtain ⟨k, rfl⟩ : ∃ k, N = k + 1 := ⟨N - 1, by omega⟩
  have hretry : ∀ i, 1 ≤ i → i ≤ 1 + k → nonRetryableClientError (e i) = false := by
    intro i hi1 hi2
    obtain ⟨r, hr, h5, _⟩ := h5xx i hi1 (by omega)
    exact nonRetryable_eq_false_of_ge_500 (e i) r hr h5
  have := retryAux_allFail transport delay e k 1
    (fun i hi1 hi2 => hfail i hi1 (by omega)) hretry
  rw [show 1 + k = k + 1 from by omega] at this
  simpa [makeRequestWithRetry] using this

/-- C2. A first attempt failing with a 4xx status that is not a timeout
(`code ≠ 'ECONNABORTED'`) stops the loop at once: exactly one transport
attempt is made and no delay is waited, whatever the configured attempt
count (≥ 1) is. -/
theorem c2_client_error_not_retried {ρ : Type} (transport : Transport ρ)
    (attempts delay : Nat) (e : AxiosFailure)
    (hA : 1 ≤ attempts)
    (h1 : transport 1 = .error e)
    (hresp : ∃ r, e.response = some r ∧ 400 ≤ r.status ∧ r.status < 500)
    (hcode : e.code ≠ some "ECONNABORTED") :
    makeRequestWithRetry transport attempts delay =
      ⟨.error (.fail e), 1, []⟩ := by
  obtain ⟨r, hr, h4, h5⟩ := hresp
  have hcl : nonRetryableClientError e = true := by
    unfold nonRetryableClientError
    rw [hr]
    simp [h4, h5, hcode]
  cases attempts with
  | zero => omega
  | succ k => simp [makeRequestWithRetry, retryAux, h1, hcl]

/-- Shape facts about every failure envelope: `success` is false, the
payload is absent, an error message is present, and the status code is
the error response's status when the remote answered and `0`
otherwise. -/
theorem failureEnvelope_spec (ρ : Type) (e : AxiosFailure) :
    (failureEnvelope ρ e).success = false ∧
    (failureEnvelope ρ e).data = none ∧
    (failureEnvelope ρ e).error.isSome = true ∧
    (failureEnvelope ρ e).statusCode =
      (match e.response with | some r => r.status | none => 0) := by
  unfold failureEnvelope
  cases hr : e.response with
  | some r => simp [hr]
  | none => cases hh : e.hasRequest <;> simp [hr, hh]

/-- C3. Every envelope actually returned by `request` keeps `error`
absent when `success` is true and keeps the payload absent when
`success` is false: at most one of the two is populated. -/
theorem c3_envelope_exclusivity {ρ : Type} (transport : Transport ρ)
    (attempts delay : Nat) (env : ApiResponse ρ)
    (h : request transport attempts delay = some env) :
    (env.success = true → env.error = none) ∧
    (env.success = false → env.data = none) := by
  unfold request at h
  cases hres : (makeRequestWithRetry transport attempts delay).result with
  | ok resp =>
    rw [hres] at h
    injection h with h
    subst h
    simp [parseResponse]
  | error t =>
    rw [hres] at h
    cases t with
    | undef => simp [handleError] at h
    | fail e =>
      simp only [handleError, Option.some.injEq] at h
      subst h
      obtain ⟨h1, h2, -, -⟩ := failureEnvelope_spec ρ e
      refine ⟨fun hs => ?_, fun _ => h2⟩
      rw [h1] at hs
      cases hs

/-- A transport response whose `x-total-count` header is present but
holds no parsable integer. -/
def c4Resp : AxiosResp Unit := ⟨200, (), ⟨some "abc", none, none⟩⟩

/-- C4, counterexample. A present but unparsable `x-total-count` header
(`"abc"`) does not leave `meta.total` absent: `parseResponse` stores
`parseInt('abc')`, i.e. `NaN`, in the field. -/
theorem c4_counterexample_nan_not_absent :
    (parseResponse c4Resp).meta = some ⟨some JsNum.nan, none, none⟩ ∧
    some JsNum.nan ≠ (none : Option JsNum) := by
  refine ⟨by decide, by simp⟩

/-- C4, amended. Each meta field of a success envelope comes from the
corresponding header via `headerMeta`; a field is absent exactly when
the header is missing or empty, and any other header value is stored as
its JavaScript `parseInt` image — the parsed leading integer when one
exists, `NaN` otherwise (never silently dropped). -/
theorem c4_amended_meta_from_headers {ρ : Type} (resp : AxiosResp ρ)
    (s : String) :
    (parseResponse resp).meta =
      some ⟨headerMeta resp.headers.xTotalCount,
            headerMeta resp.headers.xPage,
            headerMeta resp.headers.xLimit⟩ ∧
    (∀ h : Option String, (headerMeta h = none ↔ h = none ∨ h = some "")) ∧
    headerMeta (some s) = (if s = "" then none else some (parseIntJS s)) := by
  refine ⟨rfl, fun h => ?_, rfl⟩
  cases h with
  | none => simp [headerMeta]
  | some s' => by_cases hs : s' = "" <;> simp [headerMeta, hs]

/-- The result of the retry loop with at least one allowed attempt is
the last attempt's response or recorded failure — never the `undefined`
throw of a zero-attempt loop. -/
theorem retryAux_result_ok_or_fail {ρ : Type} (transport : Transport ρ)
    (delay : Nat) :
    ∀ fuel attempt, 1 ≤ fuel →
      (∃ resp, (retryAux transport delay attempt fuel).result = .ok resp) ∨
      (∃ e, (retryAux transport delay attempt fuel).result = .error (.fail e)) := by
  intro fuel
  induction fuel with
  | zero => intro attempt h; omega
  | succ k ih =>
    intro attempt _
    rcases htr : transport attempt with e | resp
    · by_cases hcl : nonRetryableClientError e = true
      · exact .inr ⟨e, by simp [retryAux, htr, hcl]⟩
      · by_cases hk : k = 0
        · exact .inr ⟨e, by simp [retryAux, htr, hcl, hk]⟩
        · obtain ⟨k', rfl⟩ : ∃ k', k = k' + 1 := ⟨k - 1, by omega⟩
          have hstep := retryAux_step transport delay attempt k' e htr
            (by simpa using hcl)
          rw [hstep]
          simpa using ih (attempt + 1) (by omega)
    · exact .inl ⟨resp, by simp [retryAux, htr]⟩

/-- `makeRequestWithRetry` with a positive attempt count yields a
response or a recorded failure. -/
theorem makeRequestWithRetry_ok_or_fail {ρ : Type} (transport : Transport ρ)
    (attempts delay : Nat) (hA : 1 ≤ attempts) :
    (∃ resp, (makeRequestWithRetry transport attempts delay).result = .ok resp) ∨
    (∃ e, (makeRequestWithRetry transport attempts delay).result = .error (.fail e)) :=
  retryAux_result_ok_or_fail transport delay attempts 1 hA

/-- C5. With an effective retry policy of at least one attempt (the
spec's Retry Policy entity requires `attempts ≥ 1`), `request` never
propagates a failure: it always returns an envelope, and whenever the
retry loop surfaced a failure the envelope is the classified one —
`success = false`, the classified message present in `error`, and the
status code equal to the error response's status when the remote
answered and `0` otherwise. -/
theorem c5_request_never_throws {ρ : Type} (transport : Transport ρ)
    (attempts delay : Nat) (hA : 1 ≤ attempts) :
    ∃ env : ApiResponse ρ, request transport attempts delay = some env ∧
      ∀ e, (makeRequestWithRetry transport attempts delay).result = .error (.fail e) →
        env = failureEnvelope ρ e ∧ env.success = false ∧
        env.error.isSome = true ∧
        env.statusCode =
          (match e.response with | some r => r.status | none => 0) := by
  rcases makeRequestWithRetry_ok_or_fail transport attempts delay hA with
    ⟨resp, hok⟩ | ⟨e, hf⟩
  · refine ⟨parseResponse resp, by simp [request, hok], fun e' he' => ?_⟩
    rw [hok] at he'
    cases he'
  · refine ⟨failureEnvelope ρ e, by simp [request, hf, handleError], fun e' he' => ?_⟩
    rw [hf] at he'
    injection he' with he'
    injection he' with he'
    subst he'
    obtain ⟨h1, -, h3, h4⟩ := failureEnvelope_spec ρ e
    exact ⟨rfl, h1, h3, h4⟩

/-- A transport that always answers with a 503 error response. -/
def c1Failure : AxiosFailure :=
  ⟨some ⟨503, none⟩, none, true, some "Request failed with status code 503"⟩

/-- Constant 5xx-failing transport used to instantiate C1. -/
def c1Transport : Transport Unit := fun _ => .error c1Failure

/-- C1 witness: a policy of 2 attempts against an always-503 transport
makes exactly 2 attempts, waits once for 100 ms, and surfaces the last
failure. -/
theorem c1_witness : (1 ≤ 2) ∧
    makeRequestWithRetry c1Transport 2 100 =
      ⟨.error (.fail c1Failure), 2, List.replicate 1 100⟩ :=
  ⟨by omega,
   c1_retry_exhausts_all_attempts c1Transport 2 100 (fun _ => c1Failure)
     (by omega) (fun _ _ _ => rfl)
     (fun _ _ _ => ⟨⟨503, none⟩, rfl, by decide, by decide⟩)⟩

/-- A 404 failure without a timeout code. -/
def c2Failure : AxiosFailure :=
  ⟨some ⟨404, none⟩, none, true, some "Request failed with status code 404"⟩

/-- Constant 404-failing transport used to instantiate C2. -/
def c2Transport : Transport Unit := fun _ => .error c2Failure

/-- C2 witness: a 404 on the first attempt under a 5-attempt policy
results in exactly one attempt and no waiting. -/
theorem c2_witness : (1 ≤ 5) ∧
    makeRequestWithRetry c2Transport 5 100 = ⟨.error (.fail c2Failure), 1, []⟩ :=
  ⟨by omega,
   c2_client_error_not_retried c2Transport 5 100 c2Failure (by omega) rfl
     ⟨⟨404, none⟩, rfl, by decide, by decide⟩ (by decide)⟩

/-- A transport failing with a 500 whose body carries a message. -/
def c3Transport : Transport Unit :=
  fun _ => .error ⟨some ⟨500, some ⟨some "boom", none⟩⟩, none, true, none⟩

/-- The envelope `request` produces for `c3Transport` under a one-shot
policy. -/
def c3Env : ApiResponse Unit := ⟨false, none, some "boom", 500, none⟩

/-- C3 witness: the concrete failure envelope for a 500 response keeps
the payload absent. -/
theorem c3_witness :
    (request c3Transport 1 0 = some c3Env) ∧
    ((c3Env.success = true → c3Env.error = none) ∧
     (c3Env.success = false → c3Env.data = none)) :=
  ⟨rfl, c3_envelope_exclusivity c3Transport 1 0 c3Env rfl⟩

/-- A transport that never answers (request dispatched, no response). -/
def c5Transport : Transport Unit := fun _ => .error ⟨none, none, true, none⟩

/-- C5 witness: with a 3-attempt policy over a never-answering transport,
`request` still returns an envelope with the classified failure. -/
theorem c5_witness : (1 ≤ 3) ∧
    ∃ env : ApiResponse Unit, request c5Transport 3 10 = some env ∧
      ∀ e, (makeRequestWithRetry c5Transport 3 10).result = .error (.fail e) →
        env = failureEnvelope Unit e ∧ env.success = false ∧
        env.error.isSome = true ∧
        env.statusCode =
          (match e.response with | some r => r.status | none => 0) :=
  ⟨by omega, c5_request_never_throws c5Transport 3 10 (by omega)⟩

end ApiClientModel

namespace UserServiceModel

/-- C6. Any create-user input that misses a required field (empty
string under JavaScript truthiness), has an email rejected by the
pre-flight regex, or has a password shorter than 8 characters, makes
`createUser` throw synchronously: the outcome is a thrown validation
fault and no request is delegated to the transport. -/
theorem c6_createUser_validates_before_network (base : String)
    (d : CreateUserData)
    (h : d.password.length < 8 ∨ d.username = "" ∨ d.email = "" ∨
         d.fullName = "" ∨ emailRegexTest d.email = false) :
    ∃ m, createUser base d = .thrown m := by
  unfold createUser
  split
  · exact ⟨_, rfl⟩
  · split
    · exact ⟨_, rfl⟩
    · split
      · exact ⟨_, rfl⟩
      · rename_i h1 h2 h3
        exfalso
        simp only [Bool.or_eq_true, decide_eq_true_eq, not_or] at h1
        obtain ⟨⟨⟨hu, he⟩, hf⟩, hp⟩ := h1
        simp only [Bool.not_eq_true', Bool.not_eq_false] at h2
        rcases h with h | h | h | h | h
        · exact h3 h
        · exact hu h
        · exact he h
        · exact hf h
        · rw [h2] at h
          cases h

/-- A create-user input with a 5-character password and otherwise valid
fields. -/
def c6Data : CreateUserData :=
  ⟨"johndoe", "john@example.com", "John Doe", "12345", none⟩

/-- C6 witness: the concrete 5-character-password input is rejected
synchronously without a delegated request. -/
theorem c6_witness :
    (c6Data.password.length < 8 ∨ c6Data.username = "" ∨ c6Data.email = "" ∨
     c6Data.fullName = "" ∨ emailRegexTest c6Data.email = false) ∧
    ∃ m, createUser "/users" c6Data = .thrown m :=
  ⟨Or.inl (by decide),
   c6_createUser_validates_before_network "/users" c6Data (Or.inl (by decide))⟩

/-- C7, counterexample. For the identifier list `["u1"]` the delegated
body names its identifier field `userIds`, not `ids`: the claimed
`{ids, updateData}` shape is not what the code sends. -/
theorem c7_counterexample_field_named_userIds :
    bulkUpdateUsers "/users" ["u1"] (JsValue.obj []) =
      SvcCall.requested "POST" "/users/bulk-update"
        (JsValue.obj [("userIds", JsValue.arr [JsValue.str "u1"]),
                      ("updateData", JsValue.obj [])]) ∧
    bulkUpdateUsers "/users" ["u1"] (JsValue.obj []) ≠
      SvcCall.requested "POST" "/users/bulk-update"
        (JsValue.obj [("ids", JsValue.arr [JsValue.str "u1"]),
                      ("updateData", JsValue.obj [])]) := by
  refine ⟨rfl, fun hcontra => ?_⟩
  rw [show bulkUpdateUsers "/users" ["u1"] (JsValue.obj []) =
      SvcCall.requested "POST" "/users/bulk-update"
        (JsValue.obj [("userIds", JsValue.arr [JsValue.str "u1"]),
                      ("updateData", JsValue.obj [])]) from rfl] at hcontra
  simp only [SvcCall.requested.injEq, JsValue.obj.injEq, List.cons.injEq,
    Prod.mk.injEq, true_and] at hcontra
  exact absurd hcontra.1.1 (by decide)

/-- C7, amended. For every non-empty identifier list, `bulkUpdateUsers`
issues a `POST` to the fixed `/bulk-update` sub-path of the base
endpoint with a body of shape `{userIds, updateData}` where `userIds`
is the given identifier list; for an empty list it throws synchronously
with no delegated request. -/
theorem c7_amended_bulk_update_shape (base : String) (ids : List String)
    (upd : JsValue) :
    (ids ≠ [] → bulkUpdateUsers base ids upd =
      .requested "POST" (base ++ "/bulk-update")
        (.obj [("userIds", .arr (ids.map .str)), ("updateData", upd)])) ∧
    (ids = [] → ∃ m, bulkUpdateUsers base ids upd = .thrown m) := by
  unfold bulkUpdateUsers
  constructor
  · intro hne
    rw [if_neg (by simpa [List.length_eq_zero] using hne)]
  · intro he
    subst he
    exact ⟨_, rfl⟩

/-- C7 witness: the amended shape at the concrete list `["u1"]`. -/
theorem c7_witness : (["u1"] ≠ ([] : List String)) ∧
    bulkUpdateUsers "/users" ["u1"] (JsValue.obj []) =
      .requested "POST" "/users/bulk-update"
        (.obj [("userIds", .arr [.str "u1"]), ("updateData", .obj [])]) :=
  ⟨by decide,
   (c7_amended_bulk_update_shape "/users" ["u1"] (JsValue.obj [])).1 (by decide)⟩

end UserServiceModel

namespace UserTableModel

/-- A component state with one displayed and selected user. -/
def c8State : UserTableState := ⟨["u1"], ["u1"], false, none⟩

/-- C8, counterexample. Reloading a state that has `"u1"` selected with
a fetched list that no longer contains `"u1"` leaves `"u1"` selected:
the selection is not filtered to the new list. -/
theorem c8_counterexample_stale_selection :
    (loadUsersSuccess c8State ["u2"]).selectedUserIds = ["u1"] ∧
    "u1" ∉ (loadUsersSuccess c8State ["u2"]).users := by
  exact ⟨rfl, by decide⟩

/-- C8, amended. A successful reload replaces the displayed users with
the fetched list, clears the loading flag and error, and leaves the
selected-identifier set unchanged — identifiers of users no longer
present are not filtered out (the selection is only emptied by the
bulk-update success path or the explicit clear action). -/
theorem c8_amended_selection_unchanged_on_reload (s : UserTableState)
    (fetched : List String) :
    (loadUsersSuccess s fetched).selectedUserIds = s.selectedUserIds ∧
    (loadUsersSuccess s fetched).users = fetched ∧
    (loadUsersSuccess s fetched).loading = false ∧
    (loadUsersSuccess s fetched).error = none ∧
    (bulkUpdateClearSelection s).selectedUserIds = [] :=
  ⟨rfl, rfl, rfl, rfl, rfl⟩

end UserTableModel

namespace UtilsModel

/-- C9. For a positive length and a non-empty charset,
`generateRandomString` returns a string of exactly `length` characters,
each drawn from the charset, whatever the random bytes are; for a
non-positive length or an empty charset it throws instead of
returning. -/
theorem c9_generateRandomString_spec (length : Int) (charset : String)
    (rnd : Nat → Nat) :
    (0 < length → charset ≠ "" →
      ∃ s, generateRandomString length charset rnd = .ok s ∧
        s.length = length.toNat ∧ ∀ c ∈ s.toList, c ∈ charset.toList) ∧
    ((length ≤ 0 ∨ charset = "") →
      ∃ m, generateRandomString length charset rnd = .thrown m) := by
  constructor
  · intro hlen hcs
    have hdata : charset.data ≠ [] := by
      intro h
      apply hcs
      cases charset
      subst h
      rfl
    have hpos : 0 < charset.length := by
      cases charset with
      | mk data => simpa using List.length_pos.mpr (by simpa using hdata)
    unfold generateRandomString
    rw [if_neg (by omega), if_neg (by omega)]
    refine ⟨_, rfl, by simp, ?_⟩
    intro c hc
    simp only [String.toList, List.mem_map, List.mem_range] at hc
    obtain ⟨i, _, rfl⟩ := hc
    have hidx : (rnd i % 256) % charset.length < charset.data.length := by
      have hll : charset.data.length = charset.length := by
        cases charset
        rfl
      rw [hll]
      exact Nat.mod_lt _ hpos
    show charset.data.getD ((rnd i % 256) % charset.length) 'A' ∈ charset.data
    rw [List.getD_eq_getElem _ _ hidx]
    exact List.getElem_mem hidx
  · intro h
    unfold generateRandomString
    rcases h with h | h
    · rw [if_pos h]
      exact ⟨_, rfl⟩
    · subst h
      rcases Decidable.em ((length : Int) ≤ 0) with hl | hl
      · rw [if_pos hl]
        exact ⟨_, rfl⟩
      · rw [if_neg hl, if_pos (show ("" : String).length = 0 from rfl)]
        exact ⟨_, rfl⟩

/-- C9 witness: length 3 and charset `"ab"` with the identity byte
source produce a 3-character string over `{a, b}`. -/
theorem c9_witness : ((0 : Int) < 3) ∧ ("ab" : String) ≠ "" ∧
    ∃ s, generateRandomString 3 "ab" (fun i => i) = .ok s ∧
      s.length = (3 : Int).toNat ∧ ∀ c ∈ s.toList, c ∈ ("ab" : String).toList :=
  ⟨by decide, by decide,
   (c9_generateRandomString_spec 3 "ab" (fun i => i)).1 (by decide) (by decide)⟩

mutual

/-- `deepClone` returns a value structurally equal to its argument. -/
theorem deepClone_eq : ∀ x : JsVal, deepClone x = x
  | .prim _ => rfl
  | .date _ => rfl
  | .arr xs => congrArg JsVal.arr (deepCloneList_eq xs)
  | .obj fs => congrArg JsVal.obj (deepCloneFields_eq fs)

/-- Elementwise cloning of an array returns the same list. -/
theorem deepCloneList_eq : ∀ xs : List JsVal, deepClone.deepCloneList xs = xs
  | [] => rfl
  | x :: xs => by rw [deepClone.deepCloneList, deepClone_eq x, deepCloneList_eq xs]

/-- Fieldwise cloning of an object returns the same field list. -/
theorem deepCloneFields_eq :
    ∀ fs : List (String × JsVal), deepClone.deepCloneFields fs = fs
  | [] => rfl
  | (k, v) :: fs => by
    rw [deepClone.deepCloneFields, deepClone_eq v, deepCloneFields_eq fs]

end

/-- C10. On values built from primitives, `null`, `Date`s, arrays and
plain objects, `deepClone` is the identity up to structural equality,
and hence cloning twice equals cloning once. -/
theorem c10_deepClone_structural_identity (x : JsVal) :
    deepClone x = x ∧ deepClone (deepClone x) = deepClone x := by
  refine ⟨deepClone_eq x, ?_⟩
  rw [deepClone_eq x]
  exact deepClone_eq x

end UtilsModel

